import Mathlib

/-
Verification of the terminator repository's natural-language specification
against a shallow Lean embedding of its source code.

Embedded components:
  * src/workflow-recorder/src/recorder/windows.rs — the Windows input-event
    recorder: `keyboard_hook_proc`, `mouse_hook_proc`, hook setup/teardown
    (`WindowsRecorder::new`, `setup_hooks`, `setup_keyboard_hook`,
    `setup_mouse_hook`, `stop`), UI-element correlation
    (`get_ui_element_at_point`, `get_element_hierarchy_path`,
    `get_window_info_for_process`).
  * src/terminator/src/lib.rs and src/terminator/src/drawing/overlay.rs —
    the Desktop facade's visualization methods and the OverlayEngine.

All OS interaction (UI Automation queries, Win32 hook installation, process
and window queries, the overlay renderer) is modelled as explicit environment
records of oracle functions; the embedded functions thread those oracles the
way the Rust code calls the corresponding APIs.
-/

set_option autoImplicit false

namespace Spec2Proof

/-! ## Windows message and hook constants (numeric values of the Win32 API
constants imported by src/workflow-recorder/src/recorder/windows.rs) -/

def HC_ACTION : Int := 0
def WM_KEYDOWN : Nat := 256
def WM_KEYUP : Nat := 257
def WM_SYSKEYDOWN : Nat := 260
def WM_SYSKEYUP : Nat := 261
def WM_MOUSEMOVE : Nat := 512
def WM_LBUTTONDOWN : Nat := 513
def WM_LBUTTONUP : Nat := 514
def WM_RBUTTONDOWN : Nat := 516
def WM_RBUTTONUP : Nat := 517
def WM_MBUTTONDOWN : Nat := 519
def WM_MBUTTONUP : Nat := 520
def WM_MOUSEWHEEL : Nat := 522

/-- The modulus of Rust's `u32`, used where the code relies on `u32`
arithmetic (the `static mut MOVE_COUNTER: u32`). -/
def U32_MOD : Nat := 4294967296

/-! ## Event data model

Mirrors the event types of the workflow-recorder crate.  The crate root
(events module) is not under src/; the field lists below are taken from the
construction sites in src/workflow-recorder/src/recorder/windows.rs
(`KeyboardEvent { .. }`, `MouseEvent { .. }`, `UiElement { .. }`,
`crate::events::Rect { .. }`). -/

structure Position where
  x : Int
  y : Int
deriving DecidableEq, Repr

/-- `crate::events::Rect` as constructed in `get_ui_element_at_point`. -/
structure EventsRect where
  x : Int
  y : Int
  width : Int
  height : Int
deriving DecidableEq, Repr

/-- The `UiElement` snapshot attached to mouse events, with exactly the
fields filled in by `get_ui_element_at_point`. -/
structure UiElement where
  name : Option String
  automation_id : Option String
  class_name : Option String
  control_type : Option String
  process_id : Option Nat
  application_name : Option String
  window_title : Option String
  bounding_rect : Option EventsRect
  is_enabled : Option Bool
  has_keyboard_focus : Option Bool
  hierarchy_path : Option String
  value : Option String
deriving DecidableEq, Repr

structure KeyboardEvent where
  key_code : Nat
  is_key_down : Bool
  ctrl_pressed : Bool
  alt_pressed : Bool
  shift_pressed : Bool
  win_pressed : Bool
deriving DecidableEq, Repr

inductive MouseEventType where
  | Down
  | Up
  | Move
  | Wheel
deriving DecidableEq, Repr

inductive MouseButton where
  | Left
  | Right
  | Middle
deriving DecidableEq, Repr

structure MouseEvent where
  event_type : MouseEventType
  button : MouseButton
  position : Position
  ui_element : Option UiElement
deriving DecidableEq, Repr

/-- Modelled from the spec: the Window payload ("Window carries
title/app-name transitions", spec section 3); the events module defining it
is not under src/.  The recorder code embedded here never constructs it. -/
structure WindowEvent where
  title : Option String
  application : Option String
deriving DecidableEq, Repr

inductive WorkflowEvent where
  | Keyboard (e : KeyboardEvent)
  | Mouse (e : MouseEvent)
  | Window (e : WindowEvent)
deriving DecidableEq, Repr

/-- Modelled from the spec: the recorder error enum is defined in a module
not under src/; `InitializationError` is the variant the embedded code
constructs, and the spec's error taxonomy (section 7) lists further kinds,
represented here by `OtherError` so that "fails with InitializationError"
is not vacuously true. -/
inductive WorkflowRecorderError where
  | InitializationError (msg : String)
  | OtherError (msg : String)
deriving DecidableEq, Repr

structure WorkflowRecorderConfig where
  record_keyboard : Bool
  record_mouse : Bool
  capture_ui_elements : Bool
deriving DecidableEq, Repr

/-- The disposition of a low-level hook procedure invocation: every return
path of the Rust hook procedures either returns `CallNextHookEx(...)`
(modelled `toNextHook`) or would swallow the event by returning some other
value (modelled `swallowed`; never produced by this code). -/
inductive HookPass where
  | toNextHook
  | swallowed
deriving DecidableEq, Repr

/-! ## keyboard_hook_proc -/

/-- The `KBDLLHOOKSTRUCT` fields read by the hook procedure. -/
structure KBDLLHOOKSTRUCT where
  vkCode : Nat
  flags : Nat
deriving DecidableEq, Repr

/-- One raw invocation of the low-level keyboard hook: the `code` argument,
the message in `wparam`, and the payload behind `lparam`. -/
structure KeyboardHookInput where
  code : Int
  wparam : Nat
  kb : KBDLLHOOKSTRUCT
deriving DecidableEq, Repr

/-- Shallow embedding of `keyboard_hook_proc`
(src/workflow-recorder/src/recorder/windows.rs lines 113-151).  The event
sent on the channel is returned as the first component (`none` when nothing
is sent); the second component records that the procedure returned
`CallNextHookEx`. -/
def keyboard_hook_proc (inp : KeyboardHookInput) : Option WorkflowEvent × HookPass :=
  if inp.code < 0 ∨ inp.code ≠ HC_ACTION then
    (none, HookPass.toNextHook)
  else
    let key_code := inp.kb.vkCode
    let is_key_down : Bool := inp.wparam == WM_KEYDOWN
    let is_key_up : Bool := inp.wparam == WM_KEYUP
    if is_key_down || is_key_up then
      let ctrl_pressed : Bool := (inp.kb.flags &&& 8 != 0) || (key_code == 17)
      let alt_pressed : Bool := (inp.kb.flags &&& 32 != 0) || (key_code == 18)
      let shift_pressed : Bool := (inp.kb.flags &&& 1 != 0) || (key_code == 16)
      let win_pressed : Bool := (key_code == 91) || (key_code == 92)
      (some (WorkflowEvent.Keyboard
        { key_code := key_code
          is_key_down := is_key_down
          ctrl_pressed := ctrl_pressed
          alt_pressed := alt_pressed
          shift_pressed := shift_pressed
          win_pressed := win_pressed }),
       HookPass.toNextHook)
    else
      (none, HookPass.toNextHook)

/-! ## UI Automation environment

`get_ui_element_at_point`, `get_element_hierarchy_path` and
`get_window_info_for_process` are built entirely out of OS calls (the
`uiautomation` crate and Win32).  Elements are modelled as opaque handles
(`Nat`), and every OS query is a field of this oracle record; each fallible
query returns `Except Unit`, matching the Rust `Result` whose error the code
only ever discards with `.ok()` / `if let Err`. -/

structure UIAEnv where
  elementFromPoint : Int → Int → Except Unit Nat
  getName : Nat → Except Unit String
  getAutomationId : Nat → Except Unit String
  getClassname : Nat → Except Unit String
  getControlTypeName : Nat → Except Unit String
  getProcessId : Nat → Except Unit Int
  getIsEnabled : Nat → Except Unit Bool
  getHasKeyboardFocus : Nat → Except Unit Bool
  getValue : Nat → Except Unit String
  getBoundingRectangle : Nat → Except Unit (Int × Int × Int × Int)
  getParent : Nat → Except Unit Nat
  windowInfoForProcess : Nat → Option String × Option String

/-- Rust's `Result::ok()`. -/
def resOk {ε α : Type} : Except ε α → Option α
  | Except.ok a => some a
  | Except.error _ => none

/-- Rust's `i32 as u32` cast (two's-complement reinterpretation). -/
def i32ToU32 (n : Int) : Nat := (n % (U32_MOD : Int)).toNat

/-- The per-element identifier built inside the loop of
`get_element_hierarchy_path` (windows.rs lines 395-406): `control_type`
bracketed with the automation id if nonempty, else with the name if
nonempty, else bare. -/
def elementIdentifier (env : UIAEnv) (e : Nat) : String :=
  let name := (resOk (env.getName e)).getD ""
  let control_type := (resOk (env.getControlTypeName e)).getD ""
  let automation_id := (resOk (env.getAutomationId e)).getD ""
  if automation_id ≠ "" then control_type ++ "[" ++ automation_id ++ "]"
  else if name ≠ "" then control_type ++ "[" ++ name ++ "]"
  else control_type

/-- The `while let Some(elem) = current` loop of
`get_element_hierarchy_path` (windows.rs lines 393-412).  The Rust loop has
no bound of any kind: it walks `get_parent` until it fails.  It is therefore
embedded with an explicit `fuel` argument, and a result of `none` means the
loop has not finished within `fuel` iterations — the loop diverges on an
input exactly when the result is `none` for every fuel. -/
def hierLoop (env : UIAEnv) : Nat → Option Nat → List String → Option (List String)
  | _, none, path => some path
  | 0, some _, _ => none
  | fuel + 1, some e, path =>
      hierLoop env fuel (resOk (env.getParent e)) (path ++ [elementIdentifier env e])

/-- Shallow embedding of `get_element_hierarchy_path` (windows.rs lines
388-422): run the parent-walk loop, reverse the collected identifiers to
root→leaf order and join them with "/".  Outer `none` = the unbounded loop
did not terminate within `fuel` parent queries. -/
def get_element_hierarchy_path (env : UIAEnv) (fuel : Nat) (element : Nat) :
    Option (Option String) :=
  (hierLoop env fuel (some element) []).map (fun path =>
    let path := path.reverse
    if path.isEmpty then none else some (String.intercalate "/" path))

/-- Shallow embedding of `get_ui_element_at_point` (windows.rs lines
332-385).  Returns `some none` when `element_from_point` fails, and
`some (some u)` with the attribute snapshot otherwise; the outer `none`
again means the hierarchy walk did not terminate within `fuel`. -/
def get_ui_element_at_point (env : UIAEnv) (fuel : Nat) (x y : Int) :
    Option (Option UiElement) :=
  match env.elementFromPoint x y with
  | Except.error _ => some none
  | Except.ok element =>
    let name := resOk (env.getName element)
    let automation_id := resOk (env.getAutomationId element)
    let class_name := resOk (env.getClassname element)
    let control_type := resOk (env.getControlTypeName element)
    let process_id := (resOk (env.getProcessId element)).map i32ToU32
    let is_enabled := resOk (env.getIsEnabled element)
    let has_keyboard_focus := resOk (env.getHasKeyboardFocus element)
    let value := resOk (env.getValue element)
    let bounding_rect := (resOk (env.getBoundingRectangle element)).map
      (fun r => ({ x := r.1, y := r.2.1
                   width := r.2.2.1 - r.1, height := r.2.2.2 - r.2.1 } : EventsRect))
    match get_element_hierarchy_path env fuel element with
    | none => none
    | some hierarchy_path =>
      let wininfo := match process_id with
        | some pid => env.windowInfoForProcess pid
        | none => (none, none)
      some (some
        { name := name
          automation_id := automation_id
          class_name := class_name
          control_type := control_type
          process_id := process_id
          application_name := wininfo.2
          window_title := wininfo.1
          bounding_rect := bounding_rect
          is_enabled := is_enabled
          has_keyboard_focus := has_keyboard_focus
          hierarchy_path := hierarchy_path
          value := value })

/-! ## mouse_hook_proc -/

/-- The decode of `wparam` in `mouse_hook_proc` (windows.rs lines 212-222):
message code to (event type, button); `none` is the wildcard arm that
immediately returns `CallNextHookEx`. -/
def decodeMouseMessage (wparam : Nat) : Option (MouseEventType × MouseButton) :=
  if wparam = WM_LBUTTONDOWN then some (MouseEventType.Down, MouseButton.Left)
  else if wparam = WM_LBUTTONUP then some (MouseEventType.Up, MouseButton.Left)
  else if wparam = WM_RBUTTONDOWN then some (MouseEventType.Down, MouseButton.Right)
  else if wparam = WM_RBUTTONUP then some (MouseEventType.Up, MouseButton.Right)
  else if wparam = WM_MBUTTONDOWN then some (MouseEventType.Down, MouseButton.Middle)
  else if wparam = WM_MBUTTONUP then some (MouseEventType.Up, MouseButton.Middle)
  else if wparam = WM_MOUSEMOVE then some (MouseEventType.Move, MouseButton.Left)
  else if wparam = WM_MOUSEWHEEL then some (MouseEventType.Wheel, MouseButton.Middle)
  else none

/-- The mutable state the mouse hook procedure touches: the
`static mut MOVE_COUNTER: u32` and the `LAST_MOUSE_POS` slot. -/
structure MouseHookState where
  moveCounter : Nat
  lastMousePos : Option Position
deriving DecidableEq, Repr

/-- State at process start: `MOVE_COUNTER` is zero-initialised and no mouse
position has been stored. -/
def initMouseHookState : MouseHookState :=
  { moveCounter := 0, lastMousePos := none }

/-- One raw invocation of the low-level mouse hook: `code`, the message in
`wparam`, and the `MSLLHOOKSTRUCT.pt` coordinates behind `lparam`. -/
structure MouseHookInput where
  code : Int
  wparam : Nat
  x : Int
  y : Int
deriving DecidableEq, Repr

/-- Shallow embedding of `mouse_hook_proc` (windows.rs lines 191-259).
`capture_ui_elements` is the `CAPTURE_UI_ELEMENTS` slot populated from the
configuration at hook setup.  The result is `none` when the invocation does
not terminate within `fuel` (possible only through the unbounded hierarchy
walk of the UI-element correlation); otherwise it is the updated state, the
event sent on the channel (if any), and the `CallNextHookEx` disposition. -/
def mouse_hook_proc (env : UIAEnv) (capture_ui_elements : Bool) (fuel : Nat)
    (st : MouseHookState) (inp : MouseHookInput) :
    Option (MouseHookState × Option WorkflowEvent × HookPass) :=
  if inp.code < 0 ∨ inp.code ≠ HC_ACTION then
    some (st, none, HookPass.toNextHook)
  else
    let st1 : MouseHookState := { st with lastMousePos := some { x := inp.x, y := inp.y } }
    match decodeMouseMessage inp.wparam with
    | none => some (st1, none, HookPass.toNextHook)
    | some (event_type, button) =>
      let st2 : MouseHookState :=
        if event_type = MouseEventType.Move then
          { st1 with moveCounter := (st1.moveCounter + 1) % U32_MOD }
        else st1
      if event_type = MouseEventType.Move ∧ st2.moveCounter % 10 ≠ 0 then
        some (st2, none, HookPass.toNextHook)
      else
        let uiRes : Option (Option UiElement) :=
          if capture_ui_elements ∧
              (event_type = MouseEventType.Down ∨ event_type = MouseEventType.Up) then
            get_ui_element_at_point env fuel inp.x inp.y
          else some none
        match uiRes with
        | none => none
        | some ui_element =>
          some (st2,
            some (WorkflowEvent.Mouse
              { event_type := event_type
                button := button
                position := { x := inp.x, y := inp.y }
                ui_element := ui_element }),
            HookPass.toNextHook)

/-- Run `mouse_hook_proc` over a whole sequence of raw invocations,
threading the state and collecting the events sent on the channel in
delivery order. -/
def runMouseHook (env : UIAEnv) (capture : Bool) (fuel : Nat) :
    MouseHookState → List MouseHookInput → Option (MouseHookState × List WorkflowEvent)
  | st, [] => some (st, [])
  | st, inp :: rest =>
    match mouse_hook_proc env capture fuel st inp with
    | none => none
    | some (st1, evOpt, _) =>
      match runMouseHook env capture fuel st1 rest with
      | none => none
      | some (stf, evs) => some (stf, evOpt.toList ++ evs)

/-- A raw `WM_MOUSEMOVE` invocation with `HC_ACTION`. -/
def isRawMove (i : MouseHookInput) : Prop :=
  i.code = HC_ACTION ∧ i.wparam = WM_MOUSEMOVE

instance (i : MouseHookInput) : Decidable (isRawMove i) := by
  unfold isRawMove
  infer_instance

/-! ## WindowsRecorder construction and teardown -/

/-- The OS interactions of recorder construction: whether
`UIAutomation::new()` succeeds, and the handle returned by
`SetWindowsHookExW` for each hook (`none` models a null handle, i.e.
installation failure). -/
structure RecorderEnv where
  uiAutomationOk : Bool
  setKeyboardHookResult : Option Int
  setMouseHookResult : Option Int
deriving DecidableEq, Repr

/-- The fields of `WindowsRecorder` the embedded operations read or write
(the automation instance, channel sender and last-mouse-position slot live
in the environment / hook state). -/
structure WindowsRecorder where
  keyboard_hook : Option Int
  mouse_hook : Option Int
  config : WorkflowRecorderConfig
deriving DecidableEq, Repr

/-- Shallow embedding of `setup_keyboard_hook` (windows.rs lines 109-181):
install the low-level keyboard hook; a null handle fails construction with
`InitializationError`, otherwise the handle is stored. -/
def setup_keyboard_hook (env : RecorderEnv) (r : WindowsRecorder) :
    Except WorkflowRecorderError WindowsRecorder :=
  match env.setKeyboardHookResult with
  | none => Except.error
      (WorkflowRecorderError.InitializationError "Failed to set keyboard hook")
  | some h => Except.ok { r with keyboard_hook := some h }

/-- Shallow embedding of `setup_mouse_hook` (windows.rs lines 184-304). -/
def setup_mouse_hook (env : RecorderEnv) (r : WindowsRecorder) :
    Except WorkflowRecorderError WindowsRecorder :=
  match env.setMouseHookResult with
  | none => Except.error
      (WorkflowRecorderError.InitializationError "Failed to set mouse hook")
  | some h => Except.ok { r with mouse_hook := some h }

/-- Shallow embedding of `setup_hooks` (windows.rs lines 94-106): keyboard
hook if `record_keyboard`, then mouse hook if `record_mouse`, each `?`
propagating failure. -/
def setup_hooks (env : RecorderEnv) (r : WindowsRecorder) :
    Except WorkflowRecorderError WindowsRecorder :=
  match (if r.config.record_keyboard then setup_keyboard_hook env r else Except.ok r) with
  | Except.error e => Except.error e
  | Except.ok r1 =>
      if r1.config.record_mouse then setup_mouse_hook env r1 else Except.ok r1

/-- Shallow embedding of `WindowsRecorder::new` (windows.rs lines 62-91):
initialise UI Automation (failure is `InitializationError`), build the
recorder with no hooks installed, then `setup_hooks`. -/
def WindowsRecorder.new (env : RecorderEnv) (config : WorkflowRecorderConfig) :
    Except WorkflowRecorderError WindowsRecorder :=
  if !env.uiAutomationOk then
    Except.error
      (WorkflowRecorderError.InitializationError "Failed to initialize UI Automation")
  else
    setup_hooks env { keyboard_hook := none, mouse_hook := none, config := config }

/-- The OS interaction of `stop`: the success of `UnhookWindowsHookEx` per
hook handle. -/
structure StopEnv where
  unhookOk : Int → Bool

/-- Shallow embedding of `WindowsRecorder::stop` (windows.rs lines 306-327):
attempt to unhook each installed hook; a failed unhook only produces a
`warn!` message (collected in the first component) and is never propagated.
`stop` takes `&self`, so the recorder value is unchanged and a second call
repeats the same unhook attempts. -/
def WindowsRecorder.stop (env : StopEnv) (r : WindowsRecorder) :
    List String × Except WorkflowRecorderError Unit :=
  let w1 := match r.keyboard_hook with
    | some h => if env.unhookOk h then [] else ["Failed to unhook keyboard hook"]
    | none => []
  let w2 := match r.mouse_hook with
    | some h => if env.unhookOk h then [] else ["Failed to unhook mouse hook"]
    | none => []
  (w1 ++ w2, Except.ok ())

/-! ## Desktop and OverlayEngine (src/terminator) -/

/-- Modelled from the spec: the `AutomationError` taxonomy of spec section 7
(`errors.rs` is not under src/); the embedded code constructs
`PlatformNotSupported` and propagates renderer failures, here represented
with `InternalError`. -/
inductive AutomationError where
  | ElementNotFound (msg : String)
  | Timeout (msg : String)
  | PlatformNotSupported (msg : String)
  | InternalError (msg : String)
deriving DecidableEq, Repr

/-- The renderer operations the OverlayEngine invokes through its
`Arc<Mutex<Box<dyn OverlayRenderer>>>` handle; a trace of these records
which rendering work a call performed. -/
inductive RenderOp where
  | initRenderer
  | rendererStart
  | rendererStop
  | clear
  | drawHighlight
  | update
  | showPopup
deriving DecidableEq, Repr

/-- The behaviour of the platform renderer (`dyn OverlayRenderer`, an
external collaborator): whether construction and each operation succeed. -/
structure RendererEnv where
  newOk : Bool
  initOk : Bool
  startOk : Bool
  stopOk : Bool
  clearOk : Bool
  drawOk : Bool
  updateOk : Bool
  popupOk : Bool
deriving DecidableEq, Repr

/-- `OverlayEngine`'s own state: its `enabled` flag (the renderer handle is
the `RendererEnv` oracle). -/
structure OverlayEngine where
  enabled : Bool
deriving DecidableEq, Repr

/-- Shallow embedding of `OverlayEngine::new` (overlay.rs lines 19-58,
Windows path): create the platform renderer, initialize it, and start
disabled.  The trace records the renderer calls performed. -/
def OverlayEngine.new (r : RendererEnv) :
    List RenderOp × Except AutomationError OverlayEngine :=
  if !r.newOk then
    ([], Except.error (AutomationError.InternalError "Failed to create overlay renderer"))
  else if !r.initOk then
    ([RenderOp.initRenderer],
     Except.error (AutomationError.InternalError "Failed to initialize overlay renderer"))
  else
    ([RenderOp.initRenderer], Except.ok { enabled := false })

/-- Shallow embedding of `OverlayEngine::start` (overlay.rs lines 61-69). -/
def OverlayEngine.start (r : RendererEnv) (e : OverlayEngine) :
    List RenderOp × Except AutomationError OverlayEngine :=
  if e.enabled then ([], Except.ok e)
  else if r.startOk then ([RenderOp.rendererStart], Except.ok { enabled := true })
  else ([RenderOp.rendererStart],
        Except.error (AutomationError.InternalError "Failed to start overlay renderer"))

/-- Shallow embedding of `OverlayEngine::stop` (overlay.rs lines 72-80). -/
def OverlayEngine.stop (r : RendererEnv) (e : OverlayEngine) :
    List RenderOp × Except AutomationError OverlayEngine :=
  if !e.enabled then ([], Except.ok e)
  else if r.stopOk then ([RenderOp.rendererStop], Except.ok { enabled := false })
  else ([RenderOp.rendererStop],
        Except.error (AutomationError.InternalError "Failed to stop overlay renderer"))

/-- Shallow embedding of `OverlayEngine::is_enabled` (overlay.rs 159-161). -/
def OverlayEngine.is_enabled (e : OverlayEngine) : Bool := e.enabled

/-- An element as seen by `OverlayEngine::highlight_elements`: only its
fallible `bounds()` query is consulted (the `UIElement` type of the
terminator crate lives in element.rs, not under src/). -/
structure VisElement where
  bounds : Except Unit (Int × Int × Int × Int)

/-- The `for element in elements` loop of `OverlayEngine::highlight_elements`
(overlay.rs lines 114-125): elements whose `bounds()` fails are skipped,
each other element gets a `draw_highlight` call whose failure propagates
immediately. -/
def drawLoop (r : RendererEnv) : List VisElement → List RenderOp × Except AutomationError Unit
  | [] => ([], Except.ok ())
  | e :: rest =>
    match e.bounds with
    | Except.error _ => drawLoop r rest
    | Except.ok _ =>
      if r.drawOk then
        let res := drawLoop r rest
        (RenderOp.drawHighlight :: res.1, res.2)
      else
        ([RenderOp.drawHighlight],
         Except.error (AutomationError.InternalError "Failed to draw highlight"))

/-- Shallow embedding of `OverlayEngine::highlight_elements` (overlay.rs
lines 94-129): no-op when disabled, else clear, draw each element with
readable bounds, update. -/
def OverlayEngine.highlight_elements (r : RendererEnv) (e : OverlayEngine)
    (elements : List VisElement) : List RenderOp × Except AutomationError Unit :=
  if !e.enabled then ([], Except.ok ())
  else if !r.clearOk then
    ([RenderOp.clear], Except.error (AutomationError.InternalError "Failed to clear overlay"))
  else
    match drawLoop r elements with
    | (t, Except.error err) => (RenderOp.clear :: t, Except.error err)
    | (t, Except.ok _) =>
      if r.updateOk then (RenderOp.clear :: (t ++ [RenderOp.update]), Except.ok ())
      else (RenderOp.clear :: (t ++ [RenderOp.update]),
            Except.error (AutomationError.InternalError "Failed to update overlay"))

/-- Shallow embedding of `OverlayEngine::show_popup` (overlay.rs 132-146). -/
def OverlayEngine.show_popup (r : RendererEnv) (e : OverlayEngine) (message : String) :
    List RenderOp × Except AutomationError Unit :=
  if !e.enabled then ([], Except.ok ())
  else if r.popupOk then ([RenderOp.showPopup], Except.ok ())
  else ([RenderOp.showPopup],
        Except.error (AutomationError.InternalError "Failed to show popup"))

/-- Shallow embedding of `OverlayEngine::clear` (overlay.rs 149-156). -/
def OverlayEngine.clear (r : RendererEnv) (e : OverlayEngine) :
    List RenderOp × Except AutomationError Unit :=
  if !e.enabled then ([], Except.ok ())
  else if r.clearOk then ([RenderOp.clear], Except.ok ())
  else ([RenderOp.clear],
        Except.error (AutomationError.InternalError "Failed to clear overlay"))

/-- The `Desktop` facade: for the claims only the optional visualizer
matters (the engine field is the opaque `Arc<dyn AccessibilityEngine>`). -/
structure Desktop where
  visualizer : Option OverlayEngine
deriving DecidableEq, Repr

/-- Shallow embedding of `Desktop::new` (lib.rs lines 56-91):
`platforms::create_engine` failure propagates (its result is passed in as
`createEngine`, the platforms module being engine glue outside these
claims); `OverlayEngine::new` failure only logs a warning and leaves the
visualizer absent. -/
def Desktop.new (createEngine : Except AutomationError Unit) (r : RendererEnv) :
    Except AutomationError Desktop :=
  match createEngine with
  | Except.error e => Except.error e
  | Except.ok _ =>
    match (OverlayEngine.new r).2 with
    | Except.ok v => Except.ok { visualizer := some v }
    | Except.error _ => Except.ok { visualizer := none }

/-- Shallow embedding of `Desktop::highlight_elements` (lib.rs lines
402-430): warn-and-Ok when the visualizer is absent or not enabled, else
delegate to the overlay engine. -/
def Desktop.highlight_elements (r : RendererEnv) (d : Desktop)
    (elements : List VisElement) : List RenderOp × Except AutomationError Unit :=
  match d.visualizer with
  | none => ([], Except.ok ())
  | some v =>
    if !(OverlayEngine.is_enabled v) then ([], Except.ok ())
    else OverlayEngine.highlight_elements r v elements

/-- Shallow embedding of `Desktop::show_popup` (lib.rs lines 433-461). -/
def Desktop.show_popup (r : RendererEnv) (d : Desktop) (message : String) :
    List RenderOp × Except AutomationError Unit :=
  match d.visualizer with
  | none => ([], Except.ok ())
  | some v =>
    if !(OverlayEngine.is_enabled v) then ([], Except.ok ())
    else OverlayEngine.show_popup r v message

/-- Shallow embedding of `Desktop::clear_visualizations` (lib.rs 531-554). -/
def Desktop.clear_visualizations (r : RendererEnv) (d : Desktop) :
    List RenderOp × Except AutomationError Unit :=
  match d.visualizer with
  | none => ([], Except.ok ())
  | some v =>
    if !(OverlayEngine.is_enabled v) then ([], Except.ok ())
    else OverlayEngine.clear r v

/-- Shallow embedding of `Desktop::start_visualization` (lib.rs lines
464-482): absent visualizer is a warn-and-Ok no-op, a present one is
started via `OverlayEngine::start` with `?` propagation (a failure leaves
`self` unchanged since `enabled` is only set after the renderer call
succeeds). -/
def Desktop.start_visualization (r : RendererEnv) (d : Desktop) :
    List RenderOp × Except AutomationError Unit × Desktop :=
  match d.visualizer with
  | none => ([], Except.ok (), d)
  | some v =>
    match OverlayEngine.start r v with
    | (t, Except.ok v1) => (t, Except.ok (), { visualizer := some v1 })
    | (t, Except.error e) => (t, Except.error e, d)

/-- Shallow embedding of `Desktop::stop_visualization` (lib.rs 485-503). -/
def Desktop.stop_visualization (r : RendererEnv) (d : Desktop) :
    List RenderOp × Except AutomationError Unit × Desktop :=
  match d.visualizer with
  | none => ([], Except.ok (), d)
  | some v =>
    match OverlayEngine.stop r v with
    | (t, Except.ok v1) => (t, Except.ok (), { visualizer := some v1 })
    | (t, Except.error e) => (t, Except.error e, d)

/-! ## Concrete environments for witnesses and counterexamples -/

/-- An accessibility environment in which every query fails (no element at
any point). -/
def trivialUIAEnv : UIAEnv :=
  { elementFromPoint := fun _ _ => Except.error ()
    getName := fun _ => Except.error ()
    getAutomationId := fun _ => Except.error ()
    getClassname := fun _ => Except.error ()
    getControlTypeName := fun _ => Except.error ()
    getProcessId := fun _ => Except.error ()
    getIsEnabled := fun _ => Except.error ()
    getHasKeyboardFocus := fun _ => Except.error ()
    getValue := fun _ => Except.error ()
    getBoundingRectangle := fun _ => Except.error ()
    getParent := fun _ => Except.error ()
    windowInfoForProcess := fun _ => (none, none) }

/-- A two-level tree: element 5 (a button, child of window 1) sits under
every point; element 1 is the root (its parent query fails). -/
def sampleUIAEnv : UIAEnv :=
  { elementFromPoint := fun _ _ => Except.ok 5
    getName := fun e => if e = 5 then Except.ok "OK" else Except.ok "root"
    getAutomationId := fun _ => Except.error ()
    getClassname := fun _ => Except.ok "Btn"
    getControlTypeName := fun e => if e = 5 then Except.ok "Button" else Except.ok "Window"
    getProcessId := fun _ => Except.ok 42
    getIsEnabled := fun _ => Except.ok true
    getHasKeyboardFocus := fun _ => Except.ok false
    getValue := fun _ => Except.error ()
    getBoundingRectangle := fun _ => Except.ok (1, 2, 11, 22)
    getParent := fun e => if e = 5 then Except.ok 1 else Except.error ()
    windowInfoForProcess := fun pid =>
      if pid = 42 then (some "Document - App", some "app.exe") else (none, none) }

/-- An environment where the element at the point resolves but every
attribute read fails. -/
def attrFailUIAEnv : UIAEnv :=
  { trivialUIAEnv with elementFromPoint := fun _ _ => Except.ok 0 }

/-- An environment whose parent links are cyclic: every element is its own
parent. -/
def cyclicUIAEnv : UIAEnv :=
  { trivialUIAEnv with
    elementFromPoint := fun _ _ => Except.ok 0
    getParent := fun e => Except.ok e }

/-- The raw move invocation used by the C1 witness. -/
def moveInput : MouseHookInput := { code := HC_ACTION, wparam := WM_MOUSEMOVE, x := 1, y := 2 }

/-- The outcome of a wheel invocation against `trivialUIAEnv`. -/
def wheelHookOut : MouseHookState × Option WorkflowEvent × HookPass :=
  ({ moveCounter := 0, lastMousePos := some { x := 3, y := 4 } },
   some (WorkflowEvent.Mouse
     { event_type := MouseEventType.Wheel, button := MouseButton.Middle
       position := { x := 3, y := 4 }, ui_element := none }),
   HookPass.toNextHook)

/-- An environment where UI Automation and both hook installations
succeed. -/
def recEnvAllOk : RecorderEnv :=
  { uiAutomationOk := true, setKeyboardHookResult := some 11, setMouseHookResult := some 22 }

/-- An environment where installing the keyboard hook returns a null
handle. -/
def recEnvKbFail : RecorderEnv :=
  { uiAutomationOk := true, setKeyboardHookResult := none, setMouseHookResult := some 22 }

/-- A configuration recording both keyboard and mouse. -/
def recCfgBoth : WorkflowRecorderConfig :=
  { record_keyboard := true, record_mouse := true, capture_ui_elements := false }

/-- The snapshot `get_ui_element_at_point` builds for a resolved element
`elem` whose hierarchy walk produced `hp`. -/
def snapshotOf (env : UIAEnv) (elem : Nat) (hp : Option String) : UiElement :=
  let process_id := (resOk (env.getProcessId elem)).map i32ToU32
  let wininfo := match process_id with
    | some pid => env.windowInfoForProcess pid
    | none => (none, none)
  { name := resOk (env.getName elem)
    automation_id := resOk (env.getAutomationId elem)
    class_name := resOk (env.getClassname elem)
    control_type := resOk (env.getControlTypeName elem)
    process_id := process_id
    application_name := wininfo.2
    window_title := wininfo.1
    bounding_rect := (resOk (env.getBoundingRectangle elem)).map
      (fun r => ({ x := r.1, y := r.2.1
                   width := r.2.2.1 - r.1, height := r.2.2.2 - r.2.1 } : EventsRect))
    is_enabled := resOk (env.getIsEnabled elem)
    has_keyboard_focus := resOk (env.getHasKeyboardFocus elem)
    hierarchy_path := hp
    value := resOk (env.getValue elem) }

/-- The snapshot the sample environment produces at any point. -/
def sampleSnapshot : UiElement :=
  { name := some "OK"
    automation_id := none
    class_name := some "Btn"
    control_type := some "Button"
    process_id := some 42
    application_name := some "app.exe"
    window_title := some "Document - App"
    bounding_rect := some { x := 1, y := 2, width := 10, height := 20 }
    is_enabled := some true
    has_keyboard_focus := some false
    hierarchy_path := some "Window[root]/Button[OK]"
    value := none }

/-- The event a captured left-button-down at (7, 8) forwards under the
sample environment. -/
def sampleDownEvent : MouseEvent :=
  { event_type := MouseEventType.Down
    button := MouseButton.Left
    position := { x := 7, y := 8 }
    ui_element := some sampleSnapshot }

/-- The event a forwarded (10th) move at (1, 1) produces. -/
def sampleMoveEvent : MouseEvent :=
  { event_type := MouseEventType.Move
    button := MouseButton.Left
    position := { x := 1, y := 1 }
    ui_element := none }

/-- The snapshot built when the element resolves but every attribute read
fails: all fields absent except the hierarchy path (which degrades to the
empty identifier, not to absence). -/
def attrFailSnapshot : UiElement :=
  { name := none
    automation_id := none
    class_name := none
    control_type := none
    process_id := none
    application_name := none
    window_title := none
    bounding_rect := none
    is_enabled := none
    has_keyboard_focus := none
    hierarchy_path := some ""
    value := none }

/-- A renderer whose `start` operation fails (everything else succeeds). -/
def startFailRenderer : RendererEnv :=
  { newOk := true, initOk := true, startOk := false, stopOk := true
    clearOk := true, drawOk := true, updateOk := true, popupOk := true }

/-- A desktop whose visualizer is present but not enabled (the state
`Desktop::new` leaves it in). -/
def disabledVisualizerDesktop : Desktop :=
  { visualizer := some { enabled := false } }

/-- A renderer all of whose operations succeed. -/
def allOkRenderer : RendererEnv :=
  { newOk := true, initOk := true, startOk := true, stopOk := true
    clearOk := true, drawOk := true, updateOk := true, popupOk := true }

/-- The event a shift key-down (vk 16, flags 0) emits. -/
def shiftDownEvent : KeyboardEvent :=
  { key_code := 16, is_key_down := true, ctrl_pressed := false, alt_pressed := false,
    shift_pressed := true, win_pressed := false }

/-! ## Helper lemmas -/

/-- Unfolding of `mouse_hook_proc` once the `wparam` decode is known. -/
theorem mouse_hook_proc_eval (env : UIAEnv) (cap : Bool) (fuel : Nat)
    (st : MouseHookState) (inp : MouseHookInput) (ety : MouseEventType) (btn : MouseButton)
    (hc : inp.code = HC_ACTION)
    (hd : decodeMouseMessage inp.wparam = some (ety, btn)) :
    mouse_hook_proc env cap fuel st inp =
      (let st2 : MouseHookState :=
        if ety = MouseEventType.Move then
          { moveCounter := (st.moveCounter + 1) % U32_MOD
            lastMousePos := some { x := inp.x, y := inp.y } }
        else
          { moveCounter := st.moveCounter
            lastMousePos := some { x := inp.x, y := inp.y } }
      if ety = MouseEventType.Move ∧ st2.moveCounter % 10 ≠ 0 then
        some (st2, none, HookPass.toNextHook)
      else
        match (if cap ∧ (ety = MouseEventType.Down ∨ ety = MouseEventType.Up) then
                 get_ui_element_at_point env fuel inp.x inp.y
               else some none) with
        | none => none
        | some ui_element =>
          some (st2,
            some (WorkflowEvent.Mouse
              { event_type := ety, button := btn
                position := { x := inp.x, y := inp.y }, ui_element := ui_element }),
            HookPass.toNextHook)) := by
  unfold mouse_hook_proc
  rw [hc, hd]
  simp [HC_ACTION]

/-! ## Claim theorems -/

/-- C2: on a raw key-down carrying the ctrl key code (virtual-key code 17,
the code the implementation identifies as the ctrl key), the emitted
`Keyboard` event has `ctrl_pressed = true` even when the payload's ctrl
flag bit (bit 3) is not set; and in general every emitted event's modifier
flags are the disjunction of the payload's flag bits with the event's own
key-code identity (17 ctrl, 18 alt, 16 shift, 91/92 win). -/
theorem keyboard_ctrl_keycode_identity :
    (∀ flags : Nat, flags &&& 8 = 0 →
      ∃ e : KeyboardEvent,
        keyboard_hook_proc
            { code := HC_ACTION, wparam := WM_KEYDOWN, kb := { vkCode := 17, flags := flags } } =
          (some (WorkflowEvent.Keyboard e), HookPass.toNextHook) ∧
        e.ctrl_pressed = true ∧ e.is_key_down = true) ∧
    (∀ (inp : KeyboardHookInput) (e : KeyboardEvent),
      (keyboard_hook_proc inp).1 = some (WorkflowEvent.Keyboard e) →
      e.ctrl_pressed = ((inp.kb.flags &&& 8 != 0) || (inp.kb.vkCode == 17)) ∧
      e.alt_pressed = ((inp.kb.flags &&& 32 != 0) || (inp.kb.vkCode == 18)) ∧
      e.shift_pressed = ((inp.kb.flags &&& 1 != 0) || (inp.kb.vkCode == 16)) ∧
      e.win_pressed = ((inp.kb.vkCode == 91) || (inp.kb.vkCode == 92))) := by
  constructor
  · intro flags _
    refine ⟨{ key_code := 17, is_key_down := true
              ctrl_pressed := (flags &&& 8 != 0) || true
              alt_pressed := (flags &&& 32 != 0) || false
              shift_pressed := (flags &&& 1 != 0) || false
              win_pressed := false }, ?_, by simp, rfl⟩
    unfold keyboard_hook_proc
    simp [HC_ACTION, WM_KEYDOWN, WM_KEYUP]
  · intro inp e h
    unfold keyboard_hook_proc at h
    split at h
    · simp at h
    · dsimp only at h
      split at h
      · simp only [Option.some.injEq, WorkflowEvent.Keyboard.injEq] at h
        subst h
        exact ⟨rfl, rfl, rfl, rfl⟩
      · simp at h

/-- Witness for C2: with flag bits all zero, the ctrl key-down (vk 17) is
emitted with `ctrl_pressed = true`; and a shift key-down (vk 16, flags 0)
is emitted with modifiers matching the flag-bit/key-code disjunction. -/
theorem keyboard_ctrl_keycode_identity_witness :
    ((0 : Nat) &&& 8 = 0 ∧
      ∃ e : KeyboardEvent,
        keyboard_hook_proc
            { code := HC_ACTION, wparam := WM_KEYDOWN, kb := { vkCode := 17, flags := 0 } } =
          (some (WorkflowEvent.Keyboard e), HookPass.toNextHook) ∧
        e.ctrl_pressed = true ∧ e.is_key_down = true) ∧
    (shiftDownEvent.ctrl_pressed = (((0 : Nat) &&& 8 != 0) || ((16 : Nat) == 17)) ∧
      shiftDownEvent.alt_pressed = (((0 : Nat) &&& 32 != 0) || ((16 : Nat) == 18)) ∧
      shiftDownEvent.shift_pressed = (((0 : Nat) &&& 1 != 0) || ((16 : Nat) == 16)) ∧
      shiftDownEvent.win_pressed = (((16 : Nat) == 91) || ((16 : Nat) == 92))) :=
  ⟨⟨by decide, keyboard_ctrl_keycode_identity.1 0 (by decide)⟩,
   keyboard_ctrl_keycode_identity.2
     { code := HC_ACTION, wparam := WM_KEYDOWN, kb := { vkCode := 16, flags := 0 } }
     shiftDownEvent rfl⟩

/-- C10: with `HC_ACTION`, a `WorkflowEvent` is emitted exactly for
`WM_KEYDOWN` and `WM_KEYUP`; any other keyboard message (such as
`WM_SYSKEYDOWN`/`WM_SYSKEYUP`) emits nothing, and control is always
returned to the hook chain. -/
theorem keyboard_emits_only_keydown_keyup (inp : KeyboardHookInput)
    (h : inp.code = HC_ACTION) :
    ((keyboard_hook_proc inp).1.isSome = true ↔
      (inp.wparam = WM_KEYDOWN ∨ inp.wparam = WM_KEYUP)) ∧
    (keyboard_hook_proc inp).2 = HookPass.toNextHook := by
  unfold keyboard_hook_proc
  rw [h]
  simp only [HC_ACTION]
  by_cases hw : inp.wparam = WM_KEYDOWN ∨ inp.wparam = WM_KEYUP
  · rcases hw with hw | hw <;> simp [hw, WM_KEYDOWN, WM_KEYUP]
  · push_neg at hw
    simp only [WM_KEYDOWN, WM_KEYUP] at hw
    simp [WM_KEYDOWN, WM_KEYUP, hw.1, hw.2]

/-- Witness for C10: a `WM_SYSKEYDOWN` (Alt-modified key-down) invocation
emits no event but is passed down the chain. -/
theorem keyboard_emits_only_keydown_keyup_witness :
    ((keyboard_hook_proc
        { code := 0, wparam := WM_SYSKEYDOWN, kb := { vkCode := 18, flags := 32 } }).1.isSome = true ↔
      ((WM_SYSKEYDOWN = WM_KEYDOWN) ∨ (WM_SYSKEYDOWN = WM_KEYUP))) ∧
    (keyboard_hook_proc
        { code := 0, wparam := WM_SYSKEYDOWN, kb := { vkCode := 18, flags := 32 } }).2 =
      HookPass.toNextHook :=
  keyboard_emits_only_keydown_keyup
    { code := 0, wparam := WM_SYSKEYDOWN, kb := { vkCode := 18, flags := 32 } } rfl

/-- C7: every return path of `keyboard_hook_proc` and of `mouse_hook_proc`
returns the value of `CallNextHookEx` — no branch (decimated move, unknown
message, failed correlation, failed send) swallows the event at the OS
level.  For the mouse hook the statement is conditional on the invocation
returning at all (the UI-element correlation can fail to terminate, see the
C8 analysis). -/
theorem hooks_always_call_next_hook :
    (∀ inp : KeyboardHookInput, (keyboard_hook_proc inp).2 = HookPass.toNextHook) ∧
    (∀ (env : UIAEnv) (cap : Bool) (fuel : Nat) (st : MouseHookState)
        (inp : MouseHookInput) (out : MouseHookState × Option WorkflowEvent × HookPass),
      mouse_hook_proc env cap fuel st inp = some out →
      out.2.2 = HookPass.toNextHook) := by
  constructor
  · intro inp
    unfold keyboard_hook_proc
    split
    · rfl
    · dsimp only
      split <;> rfl
  · intro env cap fuel st inp out h
    by_cases hc0 : inp.code < 0 ∨ inp.code ≠ HC_ACTION
    · unfold mouse_hook_proc at h
      rw [if_pos hc0] at h
      simp only [Option.some.injEq] at h
      subst h
      rfl
    · have hc : inp.code = HC_ACTION := by
        push_neg at hc0
        exact hc0.2
      rcases hdec : decodeMouseMessage inp.wparam with _ | ⟨ety, btn⟩
      · unfold mouse_hook_proc at h
        rw [if_neg hc0, hdec] at h
        simp only [Option.some.injEq] at h
        subst h
        rfl
      · rw [mouse_hook_proc_eval env cap fuel st inp ety btn hc hdec] at h
        dsimp only at h
        repeat' split at h
        all_goals
          first
            | exact Option.noConfusion h
            | (simp only [Option.some.injEq] at h; subst h; rfl)

/-- Witness for C7's conditional part: a concrete terminating wheel
invocation is passed down the chain. -/
theorem hooks_always_call_next_hook_witness :
    (mouse_hook_proc trivialUIAEnv false 0 initMouseHookState
        { code := 0, wparam := WM_MOUSEWHEEL, x := 3, y := 4 } = some wheelHookOut) ∧
    wheelHookOut.2.2 = HookPass.toNextHook :=
  ⟨rfl, hooks_always_call_next_hook.2 trivialUIAEnv false 0 initMouseHookState
    { code := 0, wparam := WM_MOUSEWHEEL, x := 3, y := 4 } wheelHookOut rfl⟩

/-- C5: `stop` always returns `Ok` (its embedding is a total function into
a pair whose result component is `Except.ok` on every path): an unhook
failure only appends a warning, and a second call — in particular one whose
unhook attempts fail because the hooks were already removed — also returns
`Ok`. -/
theorem stop_always_ok_and_repeatable :
    ∀ (env1 env2 : StopEnv) (r : WindowsRecorder),
      (WindowsRecorder.stop env1 r).2 = Except.ok () ∧
      (WindowsRecorder.stop env2 r).2 = Except.ok () := by
  intro env1 env2 r
  exact ⟨rfl, rfl⟩

/-- C4: recorder construction installs the keyboard hook iff
`record_keyboard` and the mouse hook iff `record_mouse`; when any enabled
hook fails to install, `WindowsRecorder::new` returns
`InitializationError` instead of a recorder. -/
theorem recorder_new_installs_enabled_hooks :
    (∀ (env : RecorderEnv) (config : WorkflowRecorderConfig),
      env.uiAutomationOk = true →
      (config.record_keyboard = true → env.setKeyboardHookResult.isSome = true) →
      (config.record_mouse = true → env.setMouseHookResult.isSome = true) →
      ∃ r, WindowsRecorder.new env config = Except.ok r ∧
        r.keyboard_hook.isSome = config.record_keyboard ∧
        r.mouse_hook.isSome = config.record_mouse) ∧
    (∀ (env : RecorderEnv) (config : WorkflowRecorderConfig),
      ((config.record_keyboard = true ∧ env.setKeyboardHookResult = none) ∨
       (config.record_mouse = true ∧ env.setMouseHookResult = none)) →
      ∃ msg, WindowsRecorder.new env config =
        Except.error (WorkflowRecorderError.InitializationError msg)) := by
  constructor
  · intro env config hauto hkb hms
    obtain ⟨auto, kb, ms⟩ := env
    obtain ⟨rk, rm, cap⟩ := config
    simp only at hauto hkb hms
    subst hauto
    cases rk <;> cases rm <;>
      [skip; (obtain ⟨h, hm⟩ := Option.isSome_iff_exists.mp (hms rfl); subst hm);
       (obtain ⟨h, hk⟩ := Option.isSome_iff_exists.mp (hkb rfl); subst hk);
       (obtain ⟨h1, hk⟩ := Option.isSome_iff_exists.mp (hkb rfl);
        obtain ⟨h2, hm⟩ := Option.isSome_iff_exists.mp (hms rfl); subst hk; subst hm)] <;>
      exact ⟨_, rfl, rfl, rfl⟩
  · intro env config hfail
    obtain ⟨auto, kb, ms⟩ := env
    obtain ⟨rk, rm, cap⟩ := config
    cases auto
    · exact ⟨"Failed to initialize UI Automation", rfl⟩
    · simp only at hfail
      rcases hfail with ⟨hk, hkb⟩ | ⟨hm, hms⟩
      · subst hk hkb
        exact ⟨"Failed to set keyboard hook", rfl⟩
      · subst hm hms
        cases rk
        · exact ⟨"Failed to set mouse hook", rfl⟩
        · cases kb with
          | none => exact ⟨"Failed to set keyboard hook", rfl⟩
          | some h => exact ⟨"Failed to set mouse hook", rfl⟩

/-- Witness for C4: with both hooks enabled and both installations
succeeding, construction yields a fully hooked recorder; with the keyboard
hook enabled but failing to install, construction fails with
`InitializationError`. -/
theorem recorder_new_installs_enabled_hooks_witness :
    (∃ r, WindowsRecorder.new recEnvAllOk recCfgBoth = Except.ok r ∧
      r.keyboard_hook.isSome = true ∧ r.mouse_hook.isSome = true) ∧
    (∃ msg, WindowsRecorder.new recEnvKbFail recCfgBoth =
      Except.error (WorkflowRecorderError.InitializationError msg)) := by
  constructor
  · obtain ⟨r, h1, h2, h3⟩ :=
      recorder_new_installs_enabled_hooks.1 recEnvAllOk recCfgBoth rfl
        (fun _ => rfl) (fun _ => rfl)
    exact ⟨r, h1, h2, h3⟩
  · exact recorder_new_installs_enabled_hooks.2 recEnvKbFail recCfgBoth (Or.inl ⟨rfl, rfl⟩)

/-- Evaluation of `mouse_hook_proc` on a raw `WM_MOUSEMOVE` invocation:
the counter advances (with `u32` wrap) and the event is forwarded exactly
when the new counter is divisible by 10. -/
theorem mouse_hook_proc_move (env : UIAEnv) (cap : Bool) (fuel : Nat)
    (c : Nat) (p : Option Position) (x y : Int) :
    mouse_hook_proc env cap fuel { moveCounter := c, lastMousePos := p }
        { code := HC_ACTION, wparam := WM_MOUSEMOVE, x := x, y := y } =
      (if ((c + 1) % U32_MOD) % 10 = 0 then
        some ({ moveCounter := (c + 1) % U32_MOD, lastMousePos := some { x := x, y := y } },
          some (WorkflowEvent.Mouse
            { event_type := MouseEventType.Move, button := MouseButton.Left
              position := { x := x, y := y }, ui_element := none }),
          HookPass.toNextHook)
      else
        some ({ moveCounter := (c + 1) % U32_MOD, lastMousePos := some { x := x, y := y } },
          none, HookPass.toNextHook)) := by
  have hd : decodeMouseMessage WM_MOUSEMOVE = some (MouseEventType.Move, MouseButton.Left) := by
    decide
  rw [mouse_hook_proc_eval env cap fuel { moveCounter := c, lastMousePos := p }
      { code := HC_ACTION, wparam := WM_MOUSEMOVE, x := x, y := y }
      MouseEventType.Move MouseButton.Left rfl hd]
  dsimp only
  by_cases h10 : ((c + 1) % U32_MOD) % 10 = 0
  · rw [if_pos h10]
    simp [h10]
  · rw [if_neg h10]
    simp [h10]

/-- Running the mouse hook over any all-`Move` raw sequence from counter
`c` forwards exactly `(c + n) / 10 - c / 10` of the `n` events, as long as
the `u32` counter does not wrap. -/
theorem runMouseHook_moves (env : UIAEnv) (cap : Bool) (fuel : Nat) :
    ∀ (inps : List MouseHookInput) (c : Nat) (p : Option Position),
      (∀ i ∈ inps, isRawMove i) → c + inps.length < U32_MOD →
      ∃ stf evs,
        runMouseHook env cap fuel { moveCounter := c, lastMousePos := p } inps =
          some (stf, evs) ∧
        evs.length = (c + inps.length) / 10 - c / 10 := by
  intro inps
  induction inps with
  | nil =>
    intro c p _ _
    exact ⟨_, _, rfl, by simp⟩
  | cons i rest ih =>
    intro c p hmv hlt
    obtain ⟨hc, hw⟩ := hmv i (List.mem_cons_self i rest)
    obtain ⟨code, wparam, x, y⟩ := i
    simp only at hc hw
    subst hc
    subst hw
    have hlt1 : c + 1 + rest.length < U32_MOD := by
      simp only [List.length_cons] at hlt
      omega
    have hc1 : (c + 1) % U32_MOD = c + 1 := Nat.mod_eq_of_lt (by omega)
    obtain ⟨stf, evs, hrun, hlen⟩ :=
      ih (c + 1) (some { x := x, y := y })
        (fun j hj => hmv j (List.mem_cons_of_mem _ hj)) hlt1
    have hmono : (c + 1) / 10 ≤ (c + 1 + rest.length) / 10 :=
      Nat.div_le_div_right (Nat.le_add_right _ _)
    have harith : c + (rest.length + 1) = c + 1 + rest.length := by omega
    simp only [runMouseHook]
    rw [mouse_hook_proc_move env cap fuel c p x y, hc1]
    by_cases h10 : (c + 1) % 10 = 0
    · have hsucc : (c + 1) / 10 = c / 10 + 1 := by
        rw [Nat.succ_div]
        simp [Nat.dvd_of_mod_eq_zero h10]
      rw [if_pos h10]
      dsimp only
      rw [hrun]
      refine ⟨stf, _, rfl, ?_⟩
      simp only [Option.toList_some, List.singleton_append, List.length_cons,
        List.length_cons, harith]
      omega
    · have hnd : ¬ (10 ∣ (c + 1)) := by omega
      have hsucc : (c + 1) / 10 = c / 10 := by
        rw [Nat.succ_div]
        simp [hnd]
      rw [if_neg h10]
      dsimp only
      rw [hrun]
      refine ⟨stf, _, rfl, ?_⟩
      simp only [Option.toList_none, List.nil_append, List.length_cons, harith]
      omega

/-- C1: starting from the fresh (zero) `MOVE_COUNTER`, an all-`Move` raw
sequence of length `n` (with `n` below the `u32` wrap) forwards exactly
`n / 10` events — every 10th occurrence, so 10 out of 100; and a decoded
`Down`, `Up` or `Wheel` invocation that completes always forwards its
event: sampling never drops it. -/
theorem mouse_move_decimation :
    (∀ (env : UIAEnv) (cap : Bool) (fuel : Nat) (inps : List MouseHookInput),
      (∀ i ∈ inps, isRawMove i) → inps.length < U32_MOD →
      ∃ stf evs,
        runMouseHook env cap fuel initMouseHookState inps = some (stf, evs) ∧
        evs.length = inps.length / 10) ∧
    (∀ (env : UIAEnv) (cap : Bool) (fuel : Nat) (st : MouseHookState)
        (inp : MouseHookInput) (ety : MouseEventType) (btn : MouseButton)
        (out : MouseHookState × Option WorkflowEvent × HookPass),
      inp.code = HC_ACTION → decodeMouseMessage inp.wparam = some (ety, btn) →
      ety ≠ MouseEventType.Move →
      mouse_hook_proc env cap fuel st inp = some out →
      out.2.1.isSome = true) := by
  constructor
  · intro env cap fuel inps hmv hlen
    obtain ⟨stf, evs, hrun, hl⟩ :=
      runMouseHook_moves env cap fuel inps 0 none hmv (by simpa using hlen)
    exact ⟨stf, evs, hrun, by simpa using hl⟩
  · intro env cap fuel st inp ety btn out hc hd hm h
    rw [mouse_hook_proc_eval env cap fuel st inp ety btn hc hd] at h
    dsimp only at h
    rw [if_neg hm, if_neg (by simp [hm])] at h
    split at h
    · exact Option.noConfusion h
    · simp only [Option.some.injEq] at h
      subst h
      rfl

/-- Witness for C1: 100 raw move invocations forward exactly 10 events,
and a concrete wheel invocation forwards its event. -/
theorem mouse_move_decimation_witness :
    (∃ stf evs,
      runMouseHook trivialUIAEnv false 0 initMouseHookState (List.replicate 100 moveInput) =
        some (stf, evs) ∧
      evs.length = (List.replicate 100 moveInput).length / 10) ∧
    wheelHookOut.2.1.isSome = true := by
  constructor
  · exact mouse_move_decimation.1 trivialUIAEnv false 0 (List.replicate 100 moveInput)
      (by
        intro i hi
        rw [List.eq_of_mem_replicate hi]
        exact ⟨rfl, rfl⟩)
      (by decide)
  · exact mouse_move_decimation.2 trivialUIAEnv false 0 initMouseHookState
      { code := 0, wparam := WM_MOUSEWHEEL, x := 3, y := 4 }
      MouseEventType.Wheel MouseButton.Middle wheelHookOut rfl (by decide) (by decide) rfl

/-- When `element_from_point` resolves and the hierarchy walk terminates,
`get_ui_element_at_point` returns the full snapshot. -/
theorem get_ui_element_at_point_ok (env : UIAEnv) (fuel : Nat) (x y : Int)
    (elem : Nat) (hp : Option String)
    (hfp : env.elementFromPoint x y = Except.ok elem)
    (hhp : get_element_hierarchy_path env fuel elem = some hp) :
    get_ui_element_at_point env fuel x y = some (some (snapshotOf env elem hp)) := by
  unfold get_ui_element_at_point
  rw [hfp]
  dsimp only
  rw [hhp]
  rfl

/-- Evaluation of `mouse_hook_proc` on a decoded non-`Move` invocation:
no decimation, the counter is untouched, and the event is forwarded with
the UI element resolved exactly on `Down`/`Up` under capture. -/
theorem mouse_hook_proc_nonmove (env : UIAEnv) (cap : Bool) (fuel : Nat)
    (st : MouseHookState) (inp : MouseHookInput) (ety : MouseEventType) (btn : MouseButton)
    (hc : inp.code = HC_ACTION)
    (hd : decodeMouseMessage inp.wparam = some (ety, btn))
    (hm : ety ≠ MouseEventType.Move) :
    mouse_hook_proc env cap fuel st inp =
      (match (if cap = true ∧ (ety = MouseEventType.Down ∨ ety = MouseEventType.Up) then
                get_ui_element_at_point env fuel inp.x inp.y
              else some none) with
       | none => none
       | some ui_element =>
          some ({ moveCounter := st.moveCounter, lastMousePos := some { x := inp.x, y := inp.y } },
            some (WorkflowEvent.Mouse
              { event_type := ety, button := btn
                position := { x := inp.x, y := inp.y }, ui_element := ui_element }),
            HookPass.toNextHook)) := by
  rw [mouse_hook_proc_eval env cap fuel st inp ety btn hc hd]
  dsimp only
  simp only [hm, if_false, ite_false, false_and, not_false_iff, if_neg hm]

/-- A decode yielding `Move` can only come from `WM_MOUSEMOVE` (with the
`Left` placeholder button). -/
theorem decodeMouseMessage_move_inv (w : Nat) (b : MouseButton)
    (h : decodeMouseMessage w = some (MouseEventType.Move, b)) :
    w = WM_MOUSEMOVE ∧ b = MouseButton.Left := by
  unfold decodeMouseMessage at h
  split_ifs at h <;> simp_all

/-- C3: when the element at the point resolves (and its hierarchy walk
terminates), a forwarded mouse event carries a UI-element snapshot exactly
when capture is enabled and its event type is `Down` or `Up`; forwarded
`Move` and `Wheel` events always carry `none` (unconditionally); and the
attached snapshot is the one whose `hierarchy_path` is the parent-walk
result and whose window title / application name come from the
process-id lookup. -/
theorem ui_element_attachment_policy :
    (∀ (env : UIAEnv) (cap : Bool) (fuel : Nat) (st : MouseHookState)
        (inp : MouseHookInput) (ety : MouseEventType) (btn : MouseButton)
        (elem : Nat) (hp : Option String)
        (st2 : MouseHookState) (ev : MouseEvent) (pass : HookPass),
      inp.code = HC_ACTION →
      decodeMouseMessage inp.wparam = some (ety, btn) →
      env.elementFromPoint inp.x inp.y = Except.ok elem →
      get_element_hierarchy_path env fuel elem = some hp →
      mouse_hook_proc env cap fuel st inp =
        some (st2, some (WorkflowEvent.Mouse ev), pass) →
      (ev.ui_element.isSome = true ↔
        (cap = true ∧ (ev.event_type = MouseEventType.Down ∨
                       ev.event_type = MouseEventType.Up)))) ∧
    (∀ (env : UIAEnv) (cap : Bool) (fuel : Nat) (st : MouseHookState)
        (inp : MouseHookInput) (st2 : MouseHookState) (ev : MouseEvent) (pass : HookPass),
      mouse_hook_proc env cap fuel st inp =
        some (st2, some (WorkflowEvent.Mouse ev), pass) →
      (ev.event_type = MouseEventType.Move ∨ ev.event_type = MouseEventType.Wheel) →
      ev.ui_element = none) ∧
    (∀ (env : UIAEnv) (fuel : Nat) (x y : Int) (elem : Nat) (hp : Option String),
      env.elementFromPoint x y = Except.ok elem →
      get_element_hierarchy_path env fuel elem = some hp →
      get_ui_element_at_point env fuel x y = some (some (snapshotOf env elem hp)) ∧
      (snapshotOf env elem hp).hierarchy_path = hp ∧
      (snapshotOf env elem hp).process_id = (resOk (env.getProcessId elem)).map i32ToU32 ∧
      ((snapshotOf env elem hp).window_title, (snapshotOf env elem hp).application_name) =
        (match (resOk (env.getProcessId elem)).map i32ToU32 with
          | some pid => env.windowInfoForProcess pid
          | none => (none, none))) := by
  refine ⟨?_, ?_, ?_⟩
  · intro env cap fuel st inp ety btn elem hp st2 ev pass hc hd hfp hhp h
    have hui := get_ui_element_at_point_ok env fuel inp.x inp.y elem hp hfp hhp
    cases ety with
    | Move =>
      obtain ⟨hw, hb⟩ := decodeMouseMessage_move_inv _ _ hd
      obtain ⟨code, wparam, x, y⟩ := inp
      dsimp only at hc hw
      subst hc
      subst hw
      obtain ⟨c, p⟩ := st
      rw [mouse_hook_proc_move env cap fuel c p x y] at h
      by_cases hskip : (c + 1) % U32_MOD % 10 = 0
      · rw [if_pos hskip] at h
        simp only [Option.some.injEq, Prod.mk.injEq, WorkflowEvent.Mouse.injEq] at h
        rw [← h.2.1]
        simp
      · rw [if_neg hskip] at h
        simp at h
    | Wheel =>
      rw [mouse_hook_proc_nonmove env cap fuel st inp MouseEventType.Wheel btn hc hd
        (by simp)] at h
      rw [if_neg (by simp)] at h
      dsimp only at h
      simp only [Option.some.injEq, Prod.mk.injEq, WorkflowEvent.Mouse.injEq] at h
      rw [← h.2.1]
      simp
    | Down =>
      rw [mouse_hook_proc_nonmove env cap fuel st inp MouseEventType.Down btn hc hd
        (by simp)] at h
      cases cap with
      | false =>
        rw [if_neg (by simp)] at h
        dsimp only at h
        simp only [Option.some.injEq, Prod.mk.injEq, WorkflowEvent.Mouse.injEq] at h
        rw [← h.2.1]
        simp
      | true =>
        rw [if_pos ⟨rfl, Or.inl rfl⟩, hui] at h
        dsimp only at h
        simp only [Option.some.injEq, Prod.mk.injEq, WorkflowEvent.Mouse.injEq] at h
        rw [← h.2.1]
        simp
    | Up =>
      rw [mouse_hook_proc_nonmove env cap fuel st inp MouseEventType.Up btn hc hd
        (by simp)] at h
      cases cap with
      | false =>
        rw [if_neg (by simp)] at h
        dsimp only at h
        simp only [Option.some.injEq, Prod.mk.injEq, WorkflowEvent.Mouse.injEq] at h
        rw [← h.2.1]
        simp
      | true =>
        rw [if_pos ⟨rfl, Or.inr rfl⟩, hui] at h
        dsimp only at h
        simp only [Option.some.injEq, Prod.mk.injEq, WorkflowEvent.Mouse.injEq] at h
        rw [← h.2.1]
        simp
  · intro env cap fuel st inp st2 ev pass h hmw
    by_cases hc0 : inp.code < 0 ∨ inp.code ≠ HC_ACTION
    · unfold mouse_hook_proc at h
      rw [if_pos hc0] at h
      simp at h
    · have hc : inp.code = HC_ACTION := by
        push_neg at hc0
        exact hc0.2
      rcases hdec : decodeMouseMessage inp.wparam with _ | ⟨ety, btn⟩
      · unfold mouse_hook_proc at h
        rw [if_neg hc0, hdec] at h
        simp at h
      · cases ety with
        | Move =>
          obtain ⟨hw, hb⟩ := decodeMouseMessage_move_inv _ _ hdec
          obtain ⟨code, wparam, x, y⟩ := inp
          dsimp only at hc hw
          subst hc
          subst hw
          obtain ⟨c, p⟩ := st
          rw [mouse_hook_proc_move env cap fuel c p x y] at h
          by_cases hskip : (c + 1) % U32_MOD % 10 = 0
          · rw [if_pos hskip] at h
            simp only [Option.some.injEq, Prod.mk.injEq, WorkflowEvent.Mouse.injEq] at h
            rw [← h.2.1]
          · rw [if_neg hskip] at h
            simp at h
        | Wheel =>
          rw [mouse_hook_proc_nonmove env cap fuel st inp MouseEventType.Wheel btn hc hdec
            (by simp)] at h
          rw [if_neg (by simp)] at h
          dsimp only at h
          simp only [Option.some.injEq, Prod.mk.injEq, WorkflowEvent.Mouse.injEq] at h
          rw [← h.2.1]
        | Down =>
          rw [mouse_hook_proc_nonmove env cap fuel st inp MouseEventType.Down btn hc hdec
            (by simp)] at h
          cases cap with
          | false =>
            rw [if_neg (by simp)] at h
            dsimp only at h
            simp only [Option.some.injEq, Prod.mk.injEq, WorkflowEvent.Mouse.injEq] at h
            rw [← h.2.1] at hmw
            simp at hmw
          | true =>
            rw [if_pos ⟨rfl, Or.inl rfl⟩] at h
            rcases hg : get_ui_element_at_point env fuel inp.x inp.y with _ | ui
            · rw [hg] at h
              simp at h
            · rw [hg] at h
              dsimp only at h
              simp only [Option.some.injEq, Prod.mk.injEq, WorkflowEvent.Mouse.injEq] at h
              rw [← h.2.1] at hmw
              simp at hmw
        | Up =>
          rw [mouse_hook_proc_nonmove env cap fuel st inp MouseEventType.Up btn hc hdec
            (by simp)] at h
          cases cap with
          | false =>
            rw [if_neg (by simp)] at h
            dsimp only at h
            simp only [Option.some.injEq, Prod.mk.injEq, WorkflowEvent.Mouse.injEq] at h
            rw [← h.2.1] at hmw
            simp at hmw
          | true =>
            rw [if_pos ⟨rfl, Or.inr rfl⟩] at h
            rcases hg : get_ui_element_at_point env fuel inp.x inp.y with _ | ui
            · rw [hg] at h
              simp at h
            · rw [hg] at h
              dsimp only at h
              simp only [Option.some.injEq, Prod.mk.injEq, WorkflowEvent.Mouse.injEq] at h
              rw [← h.2.1] at hmw
              simp at hmw
  · intro env fuel x y elem hp hfp hhp
    refine ⟨get_ui_element_at_point_ok env fuel x y elem hp hfp hhp, rfl, rfl, ?_⟩
    unfold snapshotOf
    dsimp only

/-- Witness for C3: under the sample environment a captured `Down` carries
the snapshot (and satisfies the iff), a forwarded `Move` carries `none`,
and the snapshot's hierarchy path is the parent-walk result. -/
theorem ui_element_attachment_policy_witness :
    (sampleDownEvent.ui_element.isSome = true ↔
      (true = true ∧ (sampleDownEvent.event_type = MouseEventType.Down ∨
                      sampleDownEvent.event_type = MouseEventType.Up))) ∧
    sampleMoveEvent.ui_element = none ∧
    (get_ui_element_at_point sampleUIAEnv 5 7 8 =
        some (some (snapshotOf sampleUIAEnv 5 (some "Window[root]/Button[OK]"))) ∧
      (snapshotOf sampleUIAEnv 5 (some "Window[root]/Button[OK]")).hierarchy_path =
        some "Window[root]/Button[OK]") := by
  refine ⟨?_, ?_, ?_⟩
  · exact ui_element_attachment_policy.1 sampleUIAEnv true 5 initMouseHookState
      { code := 0, wparam := 513, x := 7, y := 8 } MouseEventType.Down MouseButton.Left
      5 (some "Window[root]/Button[OK]")
      { moveCounter := 0, lastMousePos := some { x := 7, y := 8 } }
      sampleDownEvent HookPass.toNextHook rfl (by decide) rfl rfl rfl
  · exact ui_element_attachment_policy.2.1 sampleUIAEnv true 5
      { moveCounter := 9, lastMousePos := none }
      { code := 0, wparam := 512, x := 1, y := 1 }
      { moveCounter := 10, lastMousePos := some { x := 1, y := 1 } }
      sampleMoveEvent HookPass.toNextHook rfl (Or.inl rfl)
  · obtain ⟨h1, h2, _⟩ := ui_element_attachment_policy.2.2 sampleUIAEnv 5 7 8 5
      (some "Window[root]/Button[OK]") rfl rfl
    exact ⟨h1, h2⟩

/-- When `element_from_point` fails, `get_ui_element_at_point` returns no
snapshot (and in particular always terminates). -/
theorem get_ui_element_at_point_err (env : UIAEnv) (fuel : Nat) (x y : Int)
    (h : env.elementFromPoint x y = Except.error ()) :
    get_ui_element_at_point env fuel x y = some none := by
  unfold get_ui_element_at_point
  rw [h]

/-- Counterexample to C6 as stated: on a captured left-button-down where
`element_from_point` succeeds but every attribute read fails, the forwarded
event carries a *present* `UiElement` snapshot (with absent fields), not an
absent one — the claim's "(or any attribute read)" clause does not hold. -/
theorem correlation_attr_failure_counterexample :
    attrFailUIAEnv.getName 0 = Except.error () ∧
    mouse_hook_proc attrFailUIAEnv true 1 initMouseHookState
        { code := 0, wparam := 513, x := 3, y := 4 } =
      some ({ moveCounter := 0, lastMousePos := some { x := 3, y := 4 } },
        some (WorkflowEvent.Mouse
          { event_type := MouseEventType.Down, button := MouseButton.Left
            position := { x := 3, y := 4 }, ui_element := some attrFailSnapshot }),
        HookPass.toNextHook) ∧
    (some attrFailSnapshot : Option UiElement) ≠ none :=
  ⟨rfl, rfl, by simp⟩

/-- C6 amended: a correlation failure never drops the event and is never
surfaced as an error.  When `element_from_point` fails, the `Down`/`Up`
event is forwarded with an absent snapshot; when it succeeds but attribute
reads fail, the event is forwarded with a present snapshot whose failed
attributes are absent. -/
theorem correlation_failure_never_drops_event :
    (∀ (env : UIAEnv) (cap : Bool) (fuel : Nat) (st : MouseHookState)
        (inp : MouseHookInput) (ety : MouseEventType) (btn : MouseButton),
      inp.code = HC_ACTION → decodeMouseMessage inp.wparam = some (ety, btn) →
      (ety = MouseEventType.Down ∨ ety = MouseEventType.Up) →
      env.elementFromPoint inp.x inp.y = Except.error () →
      mouse_hook_proc env cap fuel st inp =
        some ({ moveCounter := st.moveCounter, lastMousePos := some { x := inp.x, y := inp.y } },
          some (WorkflowEvent.Mouse
            { event_type := ety, button := btn
              position := { x := inp.x, y := inp.y }, ui_element := none }),
          HookPass.toNextHook)) ∧
    (∀ (env : UIAEnv) (cap : Bool) (fuel : Nat) (st : MouseHookState)
        (inp : MouseHookInput) (ety : MouseEventType) (btn : MouseButton)
        (elem : Nat) (hp : Option String),
      inp.code = HC_ACTION → decodeMouseMessage inp.wparam = some (ety, btn) →
      (ety = MouseEventType.Down ∨ ety = MouseEventType.Up) →
      env.elementFromPoint inp.x inp.y = Except.ok elem →
      get_element_hierarchy_path env fuel elem = some hp →
      mouse_hook_proc env cap fuel st inp =
        some ({ moveCounter := st.moveCounter, lastMousePos := some { x := inp.x, y := inp.y } },
          some (WorkflowEvent.Mouse
            { event_type := ety, button := btn
              position := { x := inp.x, y := inp.y }
              ui_element := if cap then some (snapshotOf env elem hp) else none }),
          HookPass.toNextHook) ∧
      (env.getName elem = Except.error () → (snapshotOf env elem hp).name = none) ∧
      (env.getValue elem = Except.error () → (snapshotOf env elem hp).value = none)) := by
  constructor
  · intro env cap fuel st inp ety btn hc hd hdu hfp
    have hm : ety ≠ MouseEventType.Move := by
      rcases hdu with h | h <;> subst h <;> simp
    rw [mouse_hook_proc_nonmove env cap fuel st inp ety btn hc hd hm]
    have herr := get_ui_element_at_point_err env fuel inp.x inp.y hfp
    split_ifs with hcond
    · rw [herr]
    · rfl
  · intro env cap fuel st inp ety btn elem hp hc hd hdu hfp hhp
    have hm : ety ≠ MouseEventType.Move := by
      rcases hdu with h | h <;> subst h <;> simp
    have hui := get_ui_element_at_point_ok env fuel inp.x inp.y elem hp hfp hhp
    refine ⟨?_, ?_, ?_⟩
    · rw [mouse_hook_proc_nonmove env cap fuel st inp ety btn hc hd hm]
      cases cap with
      | false =>
        rw [if_neg (by simp)]
        rfl
      | true =>
        rw [if_pos ⟨rfl, hdu⟩, hui]
        rfl
    · intro herr
      simp [snapshotOf, resOk, herr]
    · intro herr
      simp [snapshotOf, resOk, herr]

/-- Witness for C6's amended claim: with no element at the point a
concrete `Down` is forwarded with an absent snapshot; with an element whose
attribute reads all fail it is forwarded with the present degraded
snapshot. -/
theorem correlation_failure_never_drops_event_witness :
    (mouse_hook_proc trivialUIAEnv true 1 initMouseHookState
        { code := 0, wparam := 514, x := 9, y := 9 } =
      some ({ moveCounter := 0, lastMousePos := some { x := 9, y := 9 } },
        some (WorkflowEvent.Mouse
          { event_type := MouseEventType.Up, button := MouseButton.Left
            position := { x := 9, y := 9 }, ui_element := none }),
        HookPass.toNextHook)) ∧
    (mouse_hook_proc attrFailUIAEnv true 1 initMouseHookState
        { code := 0, wparam := 513, x := 3, y := 4 } =
      some ({ moveCounter := 0, lastMousePos := some { x := 3, y := 4 } },
        some (WorkflowEvent.Mouse
          { event_type := MouseEventType.Down, button := MouseButton.Left
            position := { x := 3, y := 4 }
            ui_element := if true then some (snapshotOf attrFailUIAEnv 0 (some "")) else none }),
        HookPass.toNextHook)) ∧
    (snapshotOf attrFailUIAEnv 0 (some "")).name = none := by
  refine ⟨?_, ?_, ?_⟩
  · exact correlation_failure_never_drops_event.1 trivialUIAEnv true 1 initMouseHookState
      { code := 0, wparam := 514, x := 9, y := 9 } MouseEventType.Up MouseButton.Left
      rfl (by decide) (Or.inr rfl) rfl
  · exact (correlation_failure_never_drops_event.2 attrFailUIAEnv true 1 initMouseHookState
      { code := 0, wparam := 513, x := 3, y := 4 } MouseEventType.Down MouseButton.Left
      0 (some "") rfl (by decide) (Or.inl rfl) rfl rfl).1
  · exact (correlation_failure_never_drops_event.2 attrFailUIAEnv true 1 initMouseHookState
      { code := 0, wparam := 513, x := 3, y := 4 } MouseEventType.Down MouseButton.Left
      0 (some "") rfl (by decide) (Or.inl rfl) rfl rfl).2.1 rfl

/-- On the cyclic environment the parent-walk loop never finishes, for any
iteration budget and any accumulator. -/
theorem hierLoop_cyclic (fuel : Nat) :
    ∀ acc : List String, hierLoop cyclicUIAEnv fuel (some 0) acc = none := by
  induction fuel with
  | zero =>
    intro acc
    rfl
  | succ n ih =>
    intro acc
    have hstep : hierLoop cyclicUIAEnv (n + 1) (some 0) acc =
        hierLoop cyclicUIAEnv n (resOk (cyclicUIAEnv.getParent 0))
          (acc ++ [elementIdentifier cyclicUIAEnv 0]) := rfl
    rw [hstep]
    exact ih _

/-- C8: the claim asserts the parent walk of `get_element_hierarchy_path`
is bounded by a maximum depth and so terminates on every input.  The Rust
loop (windows.rs lines 393-412) has no bound of any kind: on an element
whose `get_parent` chain is cyclic (here: every element is its own parent)
the fuel-indexed embedding fails to complete for every fuel, i.e. the code
loops forever — contrary to the claim, which matches the spec's stated
intent (and the hook thread's no-blocking requirement), so the code is at
fault. -/
theorem hierarchy_walk_diverges_on_cycle :
    ∀ fuel : Nat, get_element_hierarchy_path cyclicUIAEnv fuel 0 = none := by
  intro fuel
  unfold get_element_hierarchy_path
  rw [hierLoop_cyclic fuel []]
  rfl

/-- Counterexample to C9 as stated: on a desktop whose visualizer is
present but not enabled, `start_visualization` is not an `Ok` no-op — it
invokes the renderer's `start` and propagates its failure. -/
theorem visualization_disabled_start_counterexample :
    disabledVisualizerDesktop.visualizer = some { enabled := false } ∧
    (Desktop.start_visualization startFailRenderer disabledVisualizerDesktop).2.1 =
      Except.error (AutomationError.InternalError "Failed to start overlay renderer") ∧
    (Desktop.start_visualization startFailRenderer disabledVisualizerDesktop).1 =
      [RenderOp.rendererStart] :=
  ⟨rfl, rfl, rfl⟩

/-- C9 amended: with an absent visualizer every visualization call —
`highlight_elements`, `show_popup`, `clear_visualizations`,
`start_visualization`, `stop_visualization` — returns `Ok` without any
renderer invocation; with a present but disabled visualizer this holds for
all of them except `start_visualization`, which invokes the renderer's
`start` (enabling the overlay on success and propagating its error on
failure); and `Desktop::new` succeeds with an absent visualizer whenever
`OverlayEngine` construction fails. -/
theorem visualization_degrades_when_absent_or_disabled :
    (∀ (r : RendererEnv) (d : Desktop) (elements : List VisElement) (msg : String),
      d.visualizer = none →
      Desktop.highlight_elements r d elements = ([], Except.ok ()) ∧
      Desktop.show_popup r d msg = ([], Except.ok ()) ∧
      Desktop.clear_visualizations r d = ([], Except.ok ()) ∧
      Desktop.start_visualization r d = ([], Except.ok (), d) ∧
      Desktop.stop_visualization r d = ([], Except.ok (), d)) ∧
    (∀ (r : RendererEnv) (d : Desktop) (v : OverlayEngine)
        (elements : List VisElement) (msg : String),
      d.visualizer = some v → v.enabled = false →
      Desktop.highlight_elements r d elements = ([], Except.ok ()) ∧
      Desktop.show_popup r d msg = ([], Except.ok ()) ∧
      Desktop.clear_visualizations r d = ([], Except.ok ()) ∧
      Desktop.stop_visualization r d = ([], Except.ok (), d)) ∧
    (∀ (r : RendererEnv) (d : Desktop) (v : OverlayEngine),
      d.visualizer = some v → v.enabled = false →
      Desktop.start_visualization r d =
        ([RenderOp.rendererStart],
         if r.startOk then
           (Except.ok (), ({ visualizer := some { enabled := true } } : Desktop))
         else
           (Except.error (AutomationError.InternalError "Failed to start overlay renderer"),
            d))) ∧
    (∀ (r : RendererEnv) (err : AutomationError),
      (OverlayEngine.new r).2 = Except.error err →
      Desktop.new (Except.ok ()) r = Except.ok { visualizer := none }) := by
  refine ⟨?_, ?_, ?_, ?_⟩
  · intro r d elements msg hnone
    obtain ⟨vis⟩ := d
    subst hnone
    exact ⟨rfl, rfl, rfl, rfl, rfl⟩
  · intro r d v elements msg hsome hdis
    obtain ⟨vis⟩ := d
    subst hsome
    obtain ⟨e⟩ := v
    subst hdis
    exact ⟨rfl, rfl, rfl, rfl⟩
  · intro r d v hsome hdis
    obtain ⟨vis⟩ := d
    subst hsome
    obtain ⟨e⟩ := v
    subst hdis
    unfold Desktop.start_visualization OverlayEngine.start
    cases hs : r.startOk with
    | false => simp [hs]
    | true => simp [hs]

  · intro r err hfail
    unfold Desktop.new
    rw [hfail]

/-- Witness for C9's amended claim at concrete inputs: an absent
visualizer makes all five calls `Ok` no-ops; a disabled one makes the four
non-start calls `Ok` no-ops while `start_visualization` invokes the
renderer's start — propagating its failure unchanged, and enabling the
overlay when it succeeds; and a failing overlay construction still yields
an `Ok` desktop. -/
theorem visualization_degrades_witness :
    (Desktop.highlight_elements startFailRenderer { visualizer := none } [] =
        ([], Except.ok ()) ∧
      Desktop.start_visualization startFailRenderer { visualizer := none } =
        ([], Except.ok (), { visualizer := none })) ∧
    (Desktop.show_popup startFailRenderer disabledVisualizerDesktop "hi" = ([], Except.ok ()) ∧
      Desktop.stop_visualization startFailRenderer disabledVisualizerDesktop =
        ([], Except.ok (), disabledVisualizerDesktop)) ∧
    (Desktop.start_visualization startFailRenderer disabledVisualizerDesktop =
        ([RenderOp.rendererStart],
         Except.error (AutomationError.InternalError "Failed to start overlay renderer"),
         disabledVisualizerDesktop) ∧
      Desktop.start_visualization allOkRenderer disabledVisualizerDesktop =
        ([RenderOp.rendererStart], Except.ok (),
         ({ visualizer := some { enabled := true } } : Desktop))) ∧
    Desktop.new (Except.ok ())
        { newOk := false, initOk := true, startOk := true, stopOk := true
          clearOk := true, drawOk := true, updateOk := true, popupOk := true } =
      Except.ok { visualizer := none } := by
  refine ⟨?_, ?_, ?_, ?_⟩
  · obtain ⟨h1, _, _, h4, _⟩ :=
      visualization_degrades_when_absent_or_disabled.1 startFailRenderer
        { visualizer := none } [] "hi" rfl
    exact ⟨h1, h4⟩
  · obtain ⟨_, h2, _, h4⟩ :=
      visualization_degrades_when_absent_or_disabled.2.1 startFailRenderer
        disabledVisualizerDesktop { enabled := false } [] "hi" rfl rfl
    exact ⟨h2, h4⟩
  · constructor
    · have h := visualization_degrades_when_absent_or_disabled.2.2.1 startFailRenderer
        disabledVisualizerDesktop { enabled := false } rfl rfl
      simpa [startFailRenderer] using h
    · have h := visualization_degrades_when_absent_or_disabled.2.2.1 allOkRenderer
        disabledVisualizerDesktop { enabled := false } rfl rfl
      simpa [allOkRenderer] using h
  · exact visualization_degrades_when_absent_or_disabled.2.2.2
      { newOk := false, initOk := true, startOk := true, stopOk := true
        clearOk := true, drawOk := true, updateOk := true, popupOk := true }
      (AutomationError.InternalError "Failed to create overlay renderer") rfl

end Spec2Proof
